import Mathlib

/-!
Shallow embedding of src/unlicense/emulation.py.

The module drives an external CPU emulator (unicorn) to resolve the real
exported function targeted by a protector-generated API wrapper.  The
emulator itself is external; here it is modelled as an explicit state
(registers, byte memory, mappings) together with an oracle (`Engine`)
deciding which engine operations fail and what a full emulation run
(`emu_start`) produces.  Every function of the Python module is
transcribed as a Lean definition over this state.
-/

/-- Register identifiers used by the module (unicorn x86 constants are
opaque identifiers to this code; the MSR pseudo register is modelled by a
dedicated write operation, as the code only ever writes it). -/
inductive X86Reg
  | EIP | ESP | EBP | EAX
  | RIP | RSP | RBP | RAX
deriving DecidableEq

/-- Target architecture reported by the process controller.  Modelled from
the spec: process_control.py is not part of the sources; the spec says the
controller reports x86-32 or x86-64, and the code defends against any
other value, so a generic constructor represents any other report. -/
inductive Architecture
  | X86_32
  | X86_64
  | Other (tag : String)
deriving DecidableEq

/-- Printable tag of an architecture, used in structured error payloads. -/
def archName : Architecture → String
  | .X86_32 => "X86_32"
  | .X86_64 => "X86_64"
  | .Other tag => tag

/-- Python exceptions that can escape the transcribed functions. -/
inductive PyErr
  | notImplementedError (msg : String)
  | keyError (key : String)
deriving DecidableEq

/-- Failure modes of ProcessController.read_process_memory: the dedicated
ReadProcessMemoryError versus any other exception (both are caught by the
unmapped-memory hook, at different log severities). -/
inductive ProcReadError
  | readProcessMemoryError (msg : String)
  | otherException (msg : String)
deriving DecidableEq

/-- Export directory entry: the code only reads the name field of the
dictionaries returned by enumerate_exported_functions. -/
structure ExportInfo where
  name : String
deriving DecidableEq

/-- Process introspection interface consumed by emulation.py (modelled
from the spec for process_control.py, which is not among the sources):
architecture, page and pointer sizes, reading live process memory, and the
exported-function directory as a partial map from address to entry. -/
structure ProcessController where
  architecture : Architecture
  page_size : Nat
  pointer_size : Nat
  read_process_memory : Nat → Nat → Except ProcReadError (List Nat)
  enumerate_exported_functions : Nat → Option ExportInfo

/-- Structured log entries standing for the LOG.debug and LOG.error calls
of the module (format strings replaced by structured payloads). -/
inductive LogEntry
  | debug (msg : String)
  | error (msg : String)
  | debugUnmapped (addr : Nat)
  | debugMapped (len addr : Nat)
  | debugReachedAPI (name : String)
  | debugPC (v : Nat)
  | debugSP (v : Nat)
  | debugBP (v : Nat)
deriving DecidableEq

/-- External calls performed on the emulation engine or the process
controller, recorded in order. -/
inductive EngineOp
  | memMap (addr size perms : Nat)
  | memWrite (addr : Nat) (bytes : List Nat)
  | regWrite (r : X86Reg) (v : Nat)
  | msrWrite (msrId base : Nat)
  | hookAddUnmapped
  | hookAddBlock (stop_on : Nat)
  | procRead (addr size : Nat)
deriving DecidableEq

/-- Emulator state: register width in bits (from the unicorn mode), the
register file, model-specific-register writes, byte-addressed memory, the
list of mapped regions (addr, size, perms), and the logs of performed
engine operations and emitted log lines. -/
structure Uc where
  width : Nat
  regs : X86Reg → Nat
  msrWrites : List (Nat × Nat)
  mem : Nat → Nat
  mappings : List (Nat × Nat × Nat)
  ops : List EngineOp
  log : List LogEntry

/-- Fresh emulator as built by Uc(uc_arch, uc_mode): all registers zero,
nothing mapped. -/
def ucNew (width : Nat) : Uc :=
  { width := width
    regs := fun _ => 0
    msrWrites := []
    mem := fun _ => 0
    mappings := []
    ops := []
    log := [] }

/-- Outcome of uc.emu_start: either a clean stop (hook stop or bound
reached) with the final emulator state, or a UcError fault with the
emulator state at fault time. -/
inductive EmuOutcome
  | clean (u : Uc)
  | fault (msg : String) (u : Uc)

/-- Oracle for the external emulation engine: which mem_map and mem_write
calls raise UcError, and what a full emulation run started at a given
entry with a given bound produces. -/
structure Engine where
  mem_map_fails : Nat → Nat → Bool
  mem_write_fails : Nat → List Nat → Bool
  emu_start : Uc → Nat → Nat → EmuOutcome

/-- Unicorn protection constants. -/
def UC_PROT_READ : Nat := 1

/-- Unicorn protection constant for writable pages. -/
def UC_PROT_WRITE : Nat := 2

/-- Unicorn protection constant for fully permissive pages. -/
def UC_PROT_ALL : Nat := 7

/-- Fabricated return address written to the synthetic stack
(STACK_MAGIC_RET_ADDR in the source). -/
def STACK_MAGIC_RET_ADDR : Nat := 0xdeadbeef

/-- Byte-level update of memory by a list of bytes starting at addr. -/
def writeBytes (m : Nat → Nat) (addr : Nat) (bytes : List Nat) : Nat → Nat :=
  fun a => if addr ≤ a ∧ a < addr + bytes.length then bytes.getD (a - addr) 0 else m a

/-- Little-endian fixed-width encoding of a pointer-sized value, as
produced by struct.pack with the format from pointer_size_to_fmt
(dump_utils.py, not among the sources; modelled from the spec: pointer
width used for stack and memory encoding on little-endian x86). -/
def packPtr (psize value : Nat) : List Nat :=
  (List.range psize).map (fun i => value / 256 ^ i % 256)

/-- Little-endian decoding matching packPtr, as performed by
struct.unpack on the bytes read from the stack. -/
def unpackPtr (bytes : List Nat) : Nat :=
  bytes.foldr (fun b acc => b % 256 + 256 * acc) 0

/-- Transcribes uc.mem_map: fails by the engine oracle, otherwise records
the new mapped region. -/
def mem_map (eng : Engine) (uc : Uc) (addr size perms : Nat) : Except String Uc :=
  if eng.mem_map_fails addr size then .error "mem map failed"
  else .ok { uc with
    mappings := uc.mappings ++ [(addr, size, perms)]
    ops := uc.ops ++ [.memMap addr size perms] }

/-- Transcribes uc.mem_write: fails by the engine oracle, otherwise stores
the bytes. -/
def mem_write (eng : Engine) (uc : Uc) (addr : Nat) (bytes : List Nat) : Except String Uc :=
  if eng.mem_write_fails addr bytes then .error "mem write failed"
  else .ok { uc with
    mem := writeBytes uc.mem addr bytes
    ops := uc.ops ++ [.memWrite addr bytes] }

/-- Transcribes uc.reg_write: values are truncated to the register width. -/
def reg_write (uc : Uc) (r : X86Reg) (v : Nat) : Uc :=
  { uc with
    regs := fun x => if x = r then v % 2 ^ uc.width else uc.regs x
    ops := uc.ops ++ [.regWrite r (v % 2 ^ uc.width)] }

/-- Transcribes uc.reg_read. -/
def reg_read (uc : Uc) (r : X86Reg) : Nat :=
  uc.regs r

/-- Transcribes the uc.reg_write call on the MSR pseudo register, which
takes a pair of model-specific-register id and base value. -/
def reg_write_msr (uc : Uc) (msrId base : Nat) : Uc :=
  { uc with
    msrWrites := uc.msrWrites ++ [(msrId, base)]
    ops := uc.ops ++ [.msrWrite msrId base] }

/-- Transcribes uc.mem_read of size bytes at addr. -/
def mem_read (uc : Uc) (addr size : Nat) : List Nat :=
  (List.range size).map (fun i => uc.mem (addr + i))

/-- Records an external call (hook installation, process read) in the
operation log. -/
def recordOp (uc : Uc) (o : EngineOp) : Uc :=
  { uc with ops := uc.ops ++ [o] }

/-- Appends a log line. -/
def logEntry (uc : Uc) (e : LogEntry) : Uc :=
  { uc with log := uc.log ++ [e] }

/-- Lifts an engine operation into the construction monad, pairing a
failure with the emulator state current at the time it was raised. -/
def tryOp (uc : Uc) (r : Except String Uc) : Except (String × Uc) Uc :=
  match r with
  | .ok u => .ok u
  | .error e => .error (e, uc)

/-- Transcribes _setup_teb_x86 (lines 100 to 111 of emulation.py): maps
TEB and PEB pages, writes the self and PEB pointers at offsets 0x18 and
0x30, and binds FS base via the MSR. -/
def _setup_teb_x86 (eng : Engine) (process_info : ProcessController) (uc0 : Uc) :
    Except (String × Uc) Uc := do
  let MSG_IA32_FS_BASE := 0xC0000100
  let teb_addr := 0xff100000
  let peb_addr := 0xff200000
  let uc ← tryOp uc0 (mem_map eng uc0 teb_addr process_info.page_size (UC_PROT_READ ||| UC_PROT_WRITE))
  let uc ← tryOp uc (mem_map eng uc peb_addr process_info.page_size (UC_PROT_READ ||| UC_PROT_WRITE))
  let uc ← tryOp uc (mem_write eng uc (teb_addr + 0x18) (packPtr 4 teb_addr))
  let uc ← tryOp uc (mem_write eng uc (teb_addr + 0x30) (packPtr 4 peb_addr))
  pure (reg_write_msr uc MSG_IA32_FS_BASE teb_addr)

/-- Transcribes _setup_teb_x64 (lines 114 to 125 of emulation.py): maps
TEB and PEB pages, writes the self and PEB pointers at offsets 0x30 and
0x60, and binds GS base via the MSR. -/
def _setup_teb_x64 (eng : Engine) (process_info : ProcessController) (uc0 : Uc) :
    Except (String × Uc) Uc := do
  let MSG_IA32_GS_BASE := 0xC0000101
  let teb_addr := 0xff10000000000000
  let peb_addr := 0xff20000000000000
  let uc ← tryOp uc0 (mem_map eng uc0 teb_addr process_info.page_size (UC_PROT_READ ||| UC_PROT_WRITE))
  let uc ← tryOp uc (mem_map eng uc peb_addr process_info.page_size (UC_PROT_READ ||| UC_PROT_WRITE))
  let uc ← tryOp uc (mem_write eng uc (teb_addr + 0x30) (packPtr 8 teb_addr))
  let uc ← tryOp uc (mem_write eng uc (teb_addr + 0x60) (packPtr 8 peb_addr))
  pure (reg_write_msr uc MSG_IA32_GS_BASE teb_addr)

/-- Per-architecture constants selected by resolve_wrapped_api (lines 24
to 44 of emulation.py): register identifiers, synthetic stack base, the
segment setup procedure, and the register width from the unicorn mode. -/
structure Profile where
  width : Nat
  pc_register : X86Reg
  sp_register : X86Reg
  bp_register : X86Reg
  result_register : X86Reg
  stack_addr : Nat
  setup_teb : Engine → ProcessController → Uc → Except (String × Uc) Uc

/-- Constants chosen for Architecture.X86_32 in resolve_wrapped_api. -/
def profile32 : Profile :=
  { width := 32
    pc_register := .EIP
    sp_register := .ESP
    bp_register := .EBP
    result_register := .EAX
    stack_addr := 0xff000000
    setup_teb := _setup_teb_x86 }

/-- Constants chosen for Architecture.X86_64 in resolve_wrapped_api. -/
def profile64 : Profile :=
  { width := 64
    pc_register := .RIP
    sp_register := .RSP
    bp_register := .RBP
    result_register := .RAX
    stack_addr := 0xff00000000000000
    setup_teb := _setup_teb_x64 }

/-- Profile selection of resolve_wrapped_api (lines 24 to 44): exactly the
two x86 profiles; any other architecture raises NotImplementedError
before an emulator is constructed. -/
def archProfile : Architecture → Except PyErr Profile
  | .X86_32 => .ok profile32
  | .X86_64 => .ok profile64
  | a => .error (.notImplementedError (archName a))

/-- Stop address configuration (lines 68 to 71 of emulation.py): the
expected return address when supplied, else the synthetic sentinel. -/
def stopOnRetAddr : Option Nat → Nat
  | none => STACK_MAGIC_RET_ADDR
  | some r => r

/-- Context construction performed inside the try block of
resolve_wrapped_api (lines 48 to 77): map the sentinel return-address
page, map the three-page stack and write the sentinel at the top of the
stack, point the stack and frame registers there, run the segment setup,
and install the unmapped-memory and block hooks. -/
def buildSession (eng : Engine) (process_controller : ProcessController) (prof : Profile)
    (stop_on_ret_addr : Nat) : Except (String × Uc) Uc := do
  let uc0 := ucNew prof.width
  let aligned_addr := STACK_MAGIC_RET_ADDR - STACK_MAGIC_RET_ADDR % process_controller.page_size
  let uc ← tryOp uc0 (mem_map eng uc0 aligned_addr process_controller.page_size UC_PROT_ALL)
  let stack_size := 3 * process_controller.page_size
  let stack_start := prof.stack_addr + stack_size - process_controller.page_size
  let uc ← tryOp uc (mem_map eng uc prof.stack_addr stack_size (UC_PROT_READ ||| UC_PROT_WRITE))
  let uc ← tryOp uc (mem_write eng uc stack_start (packPtr process_controller.pointer_size STACK_MAGIC_RET_ADDR))
  let uc := reg_write uc prof.sp_register stack_start
  let uc := reg_write uc prof.bp_register stack_start
  let uc ← prof.setup_teb eng process_controller uc
  let uc := recordOp uc .hookAddUnmapped
  let uc := recordOp uc (.hookAddBlock stop_on_ret_addr)
  pure uc

/-- Body of the try block of resolve_wrapped_api (lines 47 to 85):
construct the session, start emulation bounded to 1024 bytes past the
wrapper start, and on a clean stop read the result register.  An engine
fault carries the emulator state at fault time to the handler. -/
def resolveTry (eng : Engine) (process_controller : ProcessController) (prof : Profile)
    (wrapper_start_addr stop_on_ret_addr : Nat) : Except (String × Uc) (Nat × Uc) :=
  match buildSession eng process_controller prof stop_on_ret_addr with
  | .error e => .error e
  | .ok uc =>
    match eng.emu_start uc wrapper_start_addr (wrapper_start_addr + 1024) with
    | .clean u => .ok (reg_read u prof.result_register, u)
    | .fault msg u => .error (msg, u)

/-- Transcribes resolve_wrapped_api (lines 20 to 97 of emulation.py).
Returns the Python result (an error for the NotImplementedError raise,
otherwise some address or None) together with the performed engine
operations and the emitted log.  The except UcError handler logs the
error and the program counter, stack pointer and frame pointer at fault
time, and returns None. -/
def resolve_wrapped_api (eng : Engine) (wrapper_start_addr : Nat)
    (process_controller : ProcessController) (expected_ret_addr : Option Nat) :
    Except PyErr (Option Nat) × List EngineOp × List LogEntry :=
  match archProfile process_controller.architecture with
  | .error e => (.error e, [], [])
  | .ok prof =>
    let stop_on_ret_addr := stopOnRetAddr expected_ret_addr
    match resolveTry eng process_controller prof wrapper_start_addr stop_on_ret_addr with
    | .ok (pcv, uc) => (.ok (some pcv), uc.ops, uc.log)
    | .error (msg, uc) =>
      let uc := logEntry uc (.debug msg)
      let pcv := reg_read uc prof.pc_register
      let spv := reg_read uc prof.sp_register
      let bpv := reg_read uc prof.bp_register
      let uc := logEntry (logEntry (logEntry uc (.debugPC pcv)) (.debugSP spv)) (.debugBP bpv)
      (.ok none, uc.ops, uc.log)

/-- Transcribes _unicorn_hook_unmapped (lines 128 to 155 of emulation.py):
refuse the null address; otherwise page-align the faulting address with
the page mask, read one page from the live process, map it permissive and
copy the bytes in; every exception is caught and reported as an
unresolved fault (False). -/
def _unicorn_hook_unmapped (eng : Engine) (uc0 : Uc) (address : Nat)
    (process_controller : ProcessController) : Bool × Uc :=
  let uc := logEntry uc0 (.debugUnmapped address)
  if address = 0 then (false, uc)
  else
    let page_size := process_controller.page_size
    let aligned_addr := address - (address &&& (page_size - 1))
    let uc := recordOp uc (.procRead aligned_addr page_size)
    match process_controller.read_process_memory aligned_addr page_size with
    | .ok in_process_data =>
      match mem_map eng uc aligned_addr in_process_data.length UC_PROT_ALL with
      | .ok uc1 =>
        match mem_write eng uc1 aligned_addr in_process_data with
        | .ok uc2 => (true, logEntry uc2 (.debugMapped in_process_data.length aligned_addr))
        | .error e => (false, logEntry uc1 (.error e))
      | .error e => (false, logEntry uc (.error e))
    | .error (.readProcessMemoryError m) => (false, logEntry uc (.debug m))
    | .error (.otherException m) => (false, logEntry uc (.error m))

/-- Transcribes _is_no_return_api (lines 221 to 223). -/
def _is_no_return_api (api_name : String) : Bool :=
  ["ExitProcess", "FatalExit", "ExitThread"].contains api_name

/-- Transcribes _is_bogus_api (lines 226 to 228). -/
def _is_bogus_api (api_name : String) : Bool :=
  ["Sleep"].contains api_name

/-- Bogus API policy table (lines 232 to 234): simulated return value and
argument count per bogus API name. -/
def BOGUS_API_MAP : List (String × (Nat × Nat)) :=
  [("Sleep", (0, 1))]

/-- Transcribes _simulate_bogus_api (lines 231 to 235): dictionary lookup,
raising KeyError on a missing name. -/
def _simulate_bogus_api (api_name : String) : Except PyErr (Nat × Nat) :=
  match BOGUS_API_MAP.lookup api_name with
  | some v => .ok v
  | none => .error (.keyError api_name)

/-- Register identifier selection redone inside the block hook (lines 163
to 172 of emulation.py): program counter, stack pointer and result
registers, raising NotImplementedError on any other architecture. -/
def hookRegisters : Architecture → Except PyErr (X86Reg × X86Reg × X86Reg)
  | .X86_32 => .ok (.EIP, .ESP, .EAX)
  | .X86_64 => .ok (.RIP, .RSP, .RAX)
  | a => .error (.notImplementedError (archName a))

/-- Transcribes _unicorn_hook_block (lines 158 to 218 of emulation.py).
The returned boolean records whether the hook called uc.emu_stop.  At an
export address the hook reads the pointer-sized return address at the top
of the stack; it stops with the export address in the result register
when that value matches the configured stop address, that address plus
one, or the sentinel, or else when the export is a no-return API; a bogus
API is simulated by writing the configured result, popping the return
address and the architecture-determined number of stack arguments, and
jumping to the return address. -/
def _unicorn_hook_block (uc0 : Uc) (address : Nat)
    (user_data : ProcessController × Nat) : Except PyErr (Uc × Bool) :=
  let process_controller := user_data.1
  let stop_on_ret_addr := user_data.2
  let ptr_size := process_controller.pointer_size
  match hookRegisters process_controller.architecture with
  | .error e => .error e
  | .ok (pc_register, sp_register, result_register) =>
    match process_controller.enumerate_exported_functions address with
    | none => .ok (uc0, false)
    | some info =>
      let sp := reg_read uc0 sp_register
      let ret_addr := unpackPtr (mem_read uc0 sp ptr_size)
      let api_name := info.name
      let uc := logEntry uc0 (.debugReachedAPI api_name)
      if ret_addr = stop_on_ret_addr ∨ ret_addr = stop_on_ret_addr + 1 ∨
          ret_addr = STACK_MAGIC_RET_ADDR then
        .ok (reg_write uc result_register address, true)
      else if _is_no_return_api api_name then
        let uc := logEntry uc (.debug "Reached noreturn API, stopping emulation")
        .ok (reg_write uc result_register address, true)
      else if _is_bogus_api api_name then
        let uc := logEntry uc (.debug "Reached bogus API call, skipping")
        match _simulate_bogus_api api_name with
        | .error e => .error e
        | .ok (result, arg_count) =>
          let uc := reg_write uc result_register result
          let uc :=
            if process_controller.architecture = .X86_32 then
              reg_write uc sp_register (sp + ptr_size * (1 + arg_count))
            else if process_controller.architecture = .X86_64 then
              let stack_arg_count := max 0 (arg_count - 4)
              reg_write uc sp_register (sp + ptr_size * (1 + stack_arg_count))
            else uc
          let uc := reg_write uc pc_register ret_addr
          .ok (uc, false)
      else
        .ok (uc, false)

/-- Engine-side model of one emulation run as a sequence of basic-block
hook invocations: each event carries the emulator state at block entry
(instructions executed between blocks may have changed it arbitrarily)
and the block address; the run ends when the hook requests a stop,
returning the state the hook produced, or when the trace is exhausted. -/
def runTrace (process_controller : ProcessController) (stop_on_ret_addr : Nat) :
    List (Uc × Nat) → Except PyErr (Option Uc)
  | [] => .ok none
  | (uc, addr) :: rest =>
    match _unicorn_hook_block uc addr (process_controller, stop_on_ret_addr) with
    | .error e => .error e
    | .ok (uc1, true) => .ok (some uc1)
    | .ok (_, false) => runTrace process_controller stop_on_ret_addr rest

deriving instance DecidableEq for Except

/-- Concrete export directory used by witnesses and counterexamples:
one no-return API, one bogus API, one ordinary API. -/
def sampleExports : Nat → Option ExportInfo := fun a =>
  if a = 0x5000 then some { name := "ExitProcess" }
  else if a = 0x6000 then some { name := "Sleep" }
  else if a = 0x7000 then some { name := "CreateFileA" }
  else none

/-- Concrete 32-bit process controller fixture. -/
def sampleProc32 : ProcessController :=
  { architecture := .X86_32
    page_size := 4096
    pointer_size := 4
    read_process_memory := fun _ _ => .error (.readProcessMemoryError "oob")
    enumerate_exported_functions := sampleExports }

/-- Concrete 64-bit process controller fixture. -/
def sampleProc64 : ProcessController :=
  { architecture := .X86_64
    page_size := 4096
    pointer_size := 8
    read_process_memory := fun _ _ => .error (.readProcessMemoryError "oob")
    enumerate_exported_functions := sampleExports }

/-- Engine fixture on which every operation succeeds and emulation stops
cleanly with the state unchanged (stop bound reached immediately). -/
def engNoFail : Engine :=
  { mem_map_fails := fun _ _ => false
    mem_write_fails := fun _ _ => false
    emu_start := fun u _ _ => .clean u }

/-- Engine fixture on which every mem_map call raises UcError. -/
def engMapFail : Engine :=
  { mem_map_fails := fun _ _ => true
    mem_write_fails := fun _ _ => false
    emu_start := fun u _ _ => .clean u }

/-- Engine fixture on which construction succeeds but the emulation run
raises an unhandled fault, leaving the state as it was. -/
def engFaulty : Engine :=
  { mem_map_fails := fun _ _ => false
    mem_write_fails := fun _ _ => false
    emu_start := fun u _ _ => .fault "boom" u }

/-- Total extraction of the success value of a construction result, used
by witnesses to name the concretely computed session state. -/
def getOkUc (r : Except (String × Uc) Uc) (d : Uc) : Uc :=
  match r with
  | .ok u => u
  | .error _ => d

/-- Emulator-state fixture: 32-bit, stack pointer at 0x9000, the
pointer-sized value 5 stored at the top of the stack. -/
def ucStack5 : Uc :=
  { ucNew 32 with
    regs := fun x => if x = .ESP then 0x9000 else 0
    mem := fun a => if a = 0x9000 then 5 else 0 }

/-- Emulator-state fixture: 32-bit, stack pointer at 0x9000, the
pointer-sized value 0xdeadbef0 (sentinel plus one) at the top of the
stack, little endian. -/
def ucSentinelPlus1 : Uc :=
  { ucNew 32 with
    regs := fun x => if x = .ESP then 0x9000 else 0
    mem := fun a =>
      if a = 0x9000 then 0xf0
      else if a = 0x9001 then 0xbe
      else if a = 0x9002 then 0xad
      else if a = 0x9003 then 0xde
      else 0 }

/-- Controller fixture with a 16-byte page size (2 to the 4th) whose
process memory holds the bytes 0..15 in the page at 0x20. -/
def sampleProcTiny : ProcessController :=
  { architecture := .X86_32
    page_size := 16
    pointer_size := 4
    read_process_memory := fun a n =>
      if a = 0x20 ∧ n = 16 then .ok (List.range 16) else .error (.readProcessMemoryError "oob")
    enumerate_exported_functions := fun _ => none }

/-- Emulator-state fixture: 64-bit, stack pointer at 0x9000, the
pointer-sized value 5 stored at the top of the stack. -/
def ucStack5x64 : Uc :=
  { ucNew 64 with
    regs := fun x => if x = .RSP then 0x9000 else 0
    mem := fun a => if a = 0x9000 then 5 else 0 }

/-- Claim C6: when the faulting address passed to the demand-paging fault
handler is exactly the null address, the handler returns false without
performing any process-memory read or emulator mapping operation and
without touching emulator memory. -/
theorem hook_unmapped_null_refused (eng : Engine) (uc : Uc) (pcntl : ProcessController) :
    (_unicorn_hook_unmapped eng uc 0 pcntl).1 = false ∧
    (_unicorn_hook_unmapped eng uc 0 pcntl).2.ops = uc.ops ∧
    (_unicorn_hook_unmapped eng uc 0 pcntl).2.mappings = uc.mappings ∧
    (_unicorn_hook_unmapped eng uc 0 pcntl).2.mem = uc.mem := by
  simp [_unicorn_hook_unmapped, logEntry]

/-- Claim C7: for every architecture reported by the process controller
other than x86-32 and x86-64, resolve_wrapped_api raises the
NotImplementedError before any engine operation is performed (empty
operation log), never falling back to a default profile. -/
theorem resolve_unsupported_arch_raises (eng : Engine) (w : Nat) (e : Option Nat)
    (pcntl : ProcessController) (tag : String)
    (harch : pcntl.architecture = .Other tag) :
    resolve_wrapped_api eng w pcntl e = (.error (.notImplementedError tag), [], []) := by
  simp [resolve_wrapped_api, archProfile, harch, archName]

/-- Witness for C7 at a concrete ARM-tagged controller. -/
theorem resolve_unsupported_arch_raises_witness :
    ({ sampleProc32 with architecture := .Other "ARM" } : ProcessController).architecture
      = .Other "ARM" ∧
    resolve_wrapped_api engNoFail 0x1000 { sampleProc32 with architecture := .Other "ARM" } none
      = (.error (.notImplementedError "ARM"), [], []) :=
  ⟨rfl, resolve_unsupported_arch_raises engNoFail 0x1000 none _ "ARM" rfl⟩

/-- Counterexample to claim C1 as stated: with an engine on which
memory-mapping fails during context construction (the very first
mem_map, for the sentinel page, raises UcError), resolve_wrapped_api
returns the Unresolved result None instead of propagating the failure as
an error. -/
theorem c1_construction_failure_counterexample :
    engMapFail.mem_map_fails
      (STACK_MAGIC_RET_ADDR - STACK_MAGIC_RET_ADDR % sampleProc32.page_size)
      sampleProc32.page_size = true ∧
    (resolve_wrapped_api engMapFail 0x1000 sampleProc32 none).1 = .ok none := by
  decide

/-- Claim C1 amended: a memory-mapping or register-setup failure raised
by the emulation engine while the execution context is being built is
caught by the same UcError handler as emulation faults and converted
into the Unresolved (None) result; it is not propagated to the caller as
an error. -/
theorem construction_failure_is_unresolved (eng : Engine) (w : Nat) (e : Option Nat)
    (pcntl : ProcessController) (prof : Profile) (msg : String) (ucf : Uc)
    (hprof : archProfile pcntl.architecture = .ok prof)
    (hfail : buildSession eng pcntl prof (stopOnRetAddr e) = .error (msg, ucf)) :
    (resolve_wrapped_api eng w pcntl e).1 = .ok none := by
  simp [resolve_wrapped_api, hprof, resolveTry, hfail]

/-- Witness for the amended C1: the failing construction concretely
yields None. -/
theorem construction_failure_is_unresolved_witness :
    archProfile sampleProc32.architecture = .ok profile32 ∧
    buildSession engMapFail sampleProc32 profile32 (stopOnRetAddr none)
      = .error ("mem map failed", ucNew 32) ∧
    (resolve_wrapped_api engMapFail 0x1000 sampleProc32 none).1 = .ok none :=
  ⟨rfl, rfl,
    construction_failure_is_unresolved engMapFail 0x1000 none sampleProc32 profile32
      "mem map failed" (ucNew 32) rfl rfl⟩

/-- Claim C8: when the emulation engine raises a fault during the run
that the fault handler did not resolve, resolve_wrapped_api returns the
Unresolved result (None) instead of propagating the exception, after
logging the program counter, stack pointer and frame pointer at fault
time. -/
theorem resolve_fault_unresolved (eng : Engine) (w : Nat) (e : Option Nat)
    (pcntl : ProcessController) (prof : Profile) (u uf : Uc) (msg : String)
    (hprof : archProfile pcntl.architecture = .ok prof)
    (hbuild : buildSession eng pcntl prof (stopOnRetAddr e) = .ok u)
    (hrun : eng.emu_start u w (w + 1024) = .fault msg uf) :
    (resolve_wrapped_api eng w pcntl e).1 = .ok none ∧
    (resolve_wrapped_api eng w pcntl e).2.2 =
      uf.log ++ [.debug msg, .debugPC (uf.regs prof.pc_register),
                 .debugSP (uf.regs prof.sp_register), .debugBP (uf.regs prof.bp_register)] := by
  simp [resolve_wrapped_api, hprof, resolveTry, hbuild, hrun, logEntry, reg_read]

/-- Witness for C8: concrete faulting engine, fault-time registers
logged, result None. -/
theorem resolve_fault_unresolved_witness :
    archProfile sampleProc32.architecture = .ok profile32 ∧
    buildSession engFaulty sampleProc32 profile32 (stopOnRetAddr none)
      = .ok (getOkUc (buildSession engFaulty sampleProc32 profile32 (stopOnRetAddr none)) (ucNew 32)) ∧
    engFaulty.emu_start
      (getOkUc (buildSession engFaulty sampleProc32 profile32 (stopOnRetAddr none)) (ucNew 32))
      0x1000 (0x1000 + 1024)
      = .fault "boom"
        (getOkUc (buildSession engFaulty sampleProc32 profile32 (stopOnRetAddr none)) (ucNew 32)) ∧
    ((resolve_wrapped_api engFaulty 0x1000 sampleProc32 none).1 = .ok none ∧
     (resolve_wrapped_api engFaulty 0x1000 sampleProc32 none).2.2 =
       (getOkUc (buildSession engFaulty sampleProc32 profile32 (stopOnRetAddr none)) (ucNew 32)).log ++
         [.debug "boom",
          .debugPC ((getOkUc (buildSession engFaulty sampleProc32 profile32 (stopOnRetAddr none)) (ucNew 32)).regs profile32.pc_register),
          .debugSP ((getOkUc (buildSession engFaulty sampleProc32 profile32 (stopOnRetAddr none)) (ucNew 32)).regs profile32.sp_register),
          .debugBP ((getOkUc (buildSession engFaulty sampleProc32 profile32 (stopOnRetAddr none)) (ucNew 32)).regs profile32.bp_register)]) :=
  ⟨rfl, rfl, rfl,
    resolve_fault_unresolved engFaulty 0x1000 none sampleProc32 profile32 _ _ "boom" rfl rfl rfl⟩

/-- Claim C9: when emulation terminates cleanly (for example because the
1024-byte bound past the wrapper start was reached without any stop
condition firing), resolve_wrapped_api returns the current value of the
result register, which is 0 when nothing wrote to that register during
the run; it does not return the Unresolved result. -/
theorem resolve_clean_returns_result_reg (eng : Engine) (w : Nat) (e : Option Nat)
    (pcntl : ProcessController) (prof : Profile) (u uf : Uc)
    (hprof : archProfile pcntl.architecture = .ok prof)
    (hm : ∀ a s, eng.mem_map_fails a s = false)
    (hw2 : ∀ a b, eng.mem_write_fails a b = false)
    (hbuild : buildSession eng pcntl prof (stopOnRetAddr e) = .ok u)
    (hrun : eng.emu_start u w (w + 1024) = .clean uf) :
    (resolve_wrapped_api eng w pcntl e).1 = .ok (some (uf.regs prof.result_register)) ∧
    (uf.regs prof.result_register = u.regs prof.result_register →
      (resolve_wrapped_api eng w pcntl e).1 = .ok (some 0)) := by
  have hres : (resolve_wrapped_api eng w pcntl e).1 = .ok (some (uf.regs prof.result_register)) := by
    simp [resolve_wrapped_api, hprof, resolveTry, hbuild, hrun, reg_read]
  refine ⟨hres, fun hsame => ?_⟩
  have hzero : u.regs prof.result_register = 0 := by
    cases harch : pcntl.architecture with
    | X86_32 =>
      rw [harch] at hprof
      have hp : prof = profile32 := by
        simpa [archProfile] using hprof.symm
      subst hp
      simp [buildSession, tryOp, mem_map, mem_write, hm, hw2, profile32, _setup_teb_x86,
            reg_write, reg_write_msr, recordOp, ucNew, Bind.bind, Except.bind,
            Pure.pure, Except.pure] at hbuild
      rw [← hbuild]
      rfl
    | X86_64 =>
      rw [harch] at hprof
      have hp : prof = profile64 := by
        simpa [archProfile] using hprof.symm
      subst hp
      simp [buildSession, tryOp, mem_map, mem_write, hm, hw2, profile64, _setup_teb_x64,
            reg_write, reg_write_msr, recordOp, ucNew, Bind.bind, Except.bind,
            Pure.pure, Except.pure] at hbuild
      rw [← hbuild]
      rfl
    | Other tag =>
      rw [harch] at hprof
      simp [archProfile] at hprof
  rw [hres, hsame, hzero]

/-- Witness for C9: an engine whose run stops cleanly without touching
any register yields the result register value, concretely 0. -/
theorem resolve_clean_returns_result_reg_witness :
    archProfile sampleProc32.architecture = .ok profile32 ∧
    buildSession engNoFail sampleProc32 profile32 (stopOnRetAddr none)
      = .ok (getOkUc (buildSession engNoFail sampleProc32 profile32 (stopOnRetAddr none)) (ucNew 32)) ∧
    engNoFail.emu_start
      (getOkUc (buildSession engNoFail sampleProc32 profile32 (stopOnRetAddr none)) (ucNew 32))
      0x1000 (0x1000 + 1024)
      = .clean (getOkUc (buildSession engNoFail sampleProc32 profile32 (stopOnRetAddr none)) (ucNew 32)) ∧
    ((resolve_wrapped_api engNoFail 0x1000 sampleProc32 none).1
        = .ok (some ((getOkUc (buildSession engNoFail sampleProc32 profile32 (stopOnRetAddr none)) (ucNew 32)).regs profile32.result_register)) ∧
     ((getOkUc (buildSession engNoFail sampleProc32 profile32 (stopOnRetAddr none)) (ucNew 32)).regs profile32.result_register
        = (getOkUc (buildSession engNoFail sampleProc32 profile32 (stopOnRetAddr none)) (ucNew 32)).regs profile32.result_register →
      (resolve_wrapped_api engNoFail 0x1000 sampleProc32 none).1 = .ok (some 0))) :=
  ⟨rfl, rfl, rfl,
    resolve_clean_returns_result_reg engNoFail 0x1000 none sampleProc32 profile32 _ _ rfl
      (fun _ _ => rfl) (fun _ _ => rfl) rfl rfl⟩

/-- Claim C3: for every nonzero faulting address (with the page size a
power of two, as reported by the OS), the fault handler computes the
containing page as address minus (address mod pageSize), reads exactly
one page from the live process at that aligned address, maps it with
permissive access, writes the bytes in, and reports the fault resolved. -/
theorem hook_unmapped_maps_page (eng : Engine) (uc : Uc) (pcntl : ProcessController)
    (address k : Nat) (data : List Nat)
    (haddr : address ≠ 0)
    (hpage : pcntl.page_size = 2 ^ k)
    (hread : pcntl.read_process_memory (address - address % pcntl.page_size) pcntl.page_size
      = .ok data)
    (hmap : eng.mem_map_fails (address - address % pcntl.page_size) data.length = false)
    (hwr : eng.mem_write_fails (address - address % pcntl.page_size) data = false) :
    ∃ uc2,
      _unicorn_hook_unmapped eng uc address pcntl = (true, uc2) ∧
      uc2.mappings = uc.mappings ++
        [(address - address % pcntl.page_size, data.length, UC_PROT_ALL)] ∧
      uc2.ops = uc.ops ++
        [.procRead (address - address % pcntl.page_size) pcntl.page_size,
         .memMap (address - address % pcntl.page_size) data.length UC_PROT_ALL,
         .memWrite (address - address % pcntl.page_size) data] ∧
      (∀ i, i < data.length →
        uc2.mem ((address - address % pcntl.page_size) + i) = data.getD i 0) := by
  have hmask : address &&& (pcntl.page_size - 1) = address % pcntl.page_size := by
    rw [hpage]
    exact Nat.and_pow_two_sub_one_eq_mod address k
  refine ⟨(_unicorn_hook_unmapped eng uc address pcntl).2, ?_, ?_, ?_, ?_⟩
  · have h1 : (_unicorn_hook_unmapped eng uc address pcntl).1 = true := by
      simp [_unicorn_hook_unmapped, hmask, hread, mem_map, hmap, mem_write, hwr, haddr]
    exact Prod.ext h1 rfl
  · simp [_unicorn_hook_unmapped, hmask, hread, mem_map, hmap, mem_write, hwr, haddr,
      logEntry, recordOp]
  · simp [_unicorn_hook_unmapped, hmask, hread, mem_map, hmap, mem_write, hwr, haddr,
      logEntry, recordOp]
  · intro i hi
    simp [_unicorn_hook_unmapped, hmask, hread, mem_map, hmap, mem_write, hwr, haddr,
      logEntry, recordOp, writeBytes, hi]

/-- Witness for C3: fault at 0x25 resolves by mapping the aligned page at
0x20 with the live bytes. -/
theorem hook_unmapped_maps_page_witness :
    (0x25 : Nat) ≠ 0 ∧
    sampleProcTiny.page_size = 2 ^ 4 ∧
    sampleProcTiny.read_process_memory (0x25 - 0x25 % sampleProcTiny.page_size)
      sampleProcTiny.page_size = .ok (List.range 16) ∧
    engNoFail.mem_map_fails (0x25 - 0x25 % sampleProcTiny.page_size)
      (List.range 16).length = false ∧
    engNoFail.mem_write_fails (0x25 - 0x25 % sampleProcTiny.page_size)
      (List.range 16) = false ∧
    (∃ uc2,
      _unicorn_hook_unmapped engNoFail (ucNew 32) 0x25 sampleProcTiny = (true, uc2) ∧
      uc2.mappings = (ucNew 32).mappings ++
        [(0x25 - 0x25 % sampleProcTiny.page_size, (List.range 16).length, UC_PROT_ALL)] ∧
      uc2.ops = (ucNew 32).ops ++
        [.procRead (0x25 - 0x25 % sampleProcTiny.page_size) sampleProcTiny.page_size,
         .memMap (0x25 - 0x25 % sampleProcTiny.page_size) (List.range 16).length UC_PROT_ALL,
         .memWrite (0x25 - 0x25 % sampleProcTiny.page_size) (List.range 16)] ∧
      (∀ i, i < (List.range 16).length →
        uc2.mem ((0x25 - 0x25 % sampleProcTiny.page_size) + i) = (List.range 16).getD i 0)) :=
  ⟨by decide, by decide, rfl, rfl, rfl,
    hook_unmapped_maps_page engNoFail (ucNew 32) sampleProcTiny 0x25 4 (List.range 16)
      (by decide) (by decide) rfl rfl rfl⟩

/-- Counterexample to claim C2 as stated: with expected return address
100 supplied, the stack return value 5 matches none of 100, 101 and the
sentinel, yet reaching the export at 0x5000 (named ExitProcess) does
stop emulation, because the no-return branch of the hook fires. -/
theorem c2_stop_iff_counterexample :
    sampleProc32.enumerate_exported_functions 0x5000 = some { name := "ExitProcess" } ∧
    unpackPtr (mem_read ucStack5 (reg_read ucStack5 .ESP) sampleProc32.pointer_size) = 5 ∧
    (5 : Nat) ≠ 100 ∧ (5 : Nat) ≠ 100 + 1 ∧ (5 : Nat) ≠ STACK_MAGIC_RET_ADDR ∧
    Except.map (fun p => p.2) (_unicorn_hook_block ucStack5 0x5000 (sampleProc32, 100))
      = .ok true := by
  decide

/-- Claim C2 amended: at a block address present in the export directory,
with stop address R configured, the hook stops emulation and writes the
export address into the result register exactly when the pointer-sized
stack return value is R, R plus 1, or the sentinel, or else when the
export is a no-return API; for any other stack value, reaching an export
that is not a no-return API does not stop emulation. -/
theorem hook_block_stop_condition (pcntl : ProcessController) (stop_on : Nat) (uc : Uc)
    (address : Nat) (info : ExportInfo) (pcR spR resR : X86Reg)
    (hreg : hookRegisters pcntl.architecture = .ok (pcR, spR, resR))
    (hexp : pcntl.enumerate_exported_functions address = some info) :
    ((unpackPtr (mem_read uc (reg_read uc spR) pcntl.pointer_size) = stop_on ∨
      unpackPtr (mem_read uc (reg_read uc spR) pcntl.pointer_size) = stop_on + 1 ∨
      unpackPtr (mem_read uc (reg_read uc spR) pcntl.pointer_size) = STACK_MAGIC_RET_ADDR) →
      Except.map (fun p => p.2) (_unicorn_hook_block uc address (pcntl, stop_on)) = .ok true ∧
      Except.map (fun p => p.1.regs resR) (_unicorn_hook_block uc address (pcntl, stop_on))
        = .ok (address % 2 ^ uc.width)) ∧
    (¬(unpackPtr (mem_read uc (reg_read uc spR) pcntl.pointer_size) = stop_on ∨
       unpackPtr (mem_read uc (reg_read uc spR) pcntl.pointer_size) = stop_on + 1 ∨
       unpackPtr (mem_read uc (reg_read uc spR) pcntl.pointer_size) = STACK_MAGIC_RET_ADDR) →
      _is_no_return_api info.name = false →
      Except.map (fun p => p.2) (_unicorn_hook_block uc address (pcntl, stop_on)) = .ok false) := by
  constructor
  · intro htop
    constructor
    · simp only [_unicorn_hook_block, hreg, hexp, if_pos htop, Except.map]
    · simp only [_unicorn_hook_block, hreg, hexp, if_pos htop, Except.map]
      simp [reg_write, logEntry]
  · intro htop hnr
    by_cases hbog : _is_bogus_api info.name = true
    · have hname : info.name = "Sleep" := by
        simpa [_is_bogus_api, List.contains] using hbog
      simp only [_unicorn_hook_block, hreg, hexp, if_neg htop, hnr, Bool.false_eq_true,
        if_false, hbog, if_true, hname, _simulate_bogus_api, BOGUS_API_MAP, List.lookup]
      rfl
    · simp only [_unicorn_hook_block, hreg, hexp, if_neg htop, hnr, Bool.false_eq_true,
        if_false, eq_false_of_ne_true hbog, Except.map]

/-- Witness for the amended C2: a matching stack value stops and resolves
to the export; a non-matching value at an ordinary export does not stop. -/
theorem hook_block_stop_condition_witness :
    hookRegisters sampleProc32.architecture = .ok (.EIP, .ESP, .EAX) ∧
    sampleProc32.enumerate_exported_functions 0x7000 = some { name := "CreateFileA" } ∧
    Except.map (fun p => p.2) (_unicorn_hook_block ucStack5 0x7000 (sampleProc32, 5))
      = .ok true ∧
    Except.map (fun p => p.1.regs X86Reg.EAX) (_unicorn_hook_block ucStack5 0x7000 (sampleProc32, 5))
      = .ok (0x7000 % 2 ^ ucStack5.width) ∧
    Except.map (fun p => p.2) (_unicorn_hook_block ucStack5 0x7000 (sampleProc32, 100))
      = .ok false :=
  ⟨rfl, rfl,
    ((hook_block_stop_condition sampleProc32 5 ucStack5 0x7000 { name := "CreateFileA" }
      .EIP .ESP .EAX rfl rfl).1 (Or.inl (by decide))).1,
    ((hook_block_stop_condition sampleProc32 5 ucStack5 0x7000 { name := "CreateFileA" }
      .EIP .ESP .EAX rfl rfl).1 (Or.inl (by decide))).2,
    (hook_block_stop_condition sampleProc32 100 ucStack5 0x7000 { name := "CreateFileA" }
      .EIP .ESP .EAX rfl rfl).2 (by decide) (by decide)⟩

/-- Claim C4: in the bogus-call bypass with pointer size p and configured
argument count n, the hook does not stop emulation; it writes the
configured result (0 for Sleep), advances the stack pointer by exactly
p times (1 plus n) on the 32-bit profile and by p times (1 plus
max 0 (n minus 4)) on the 64-bit profile — for Sleep (n equal 1) two
pointer widths and one pointer width respectively — and sets the program
counter to the return address that was on top of the stack. -/
theorem hook_block_bogus_bypass (pcntl : ProcessController) (stop_on : Nat) (uc : Uc)
    (address : Nat) (info : ExportInfo) (pcR spR resR : X86Reg) (r n : Nat)
    (hreg : hookRegisters pcntl.architecture = .ok (pcR, spR, resR))
    (hexp : pcntl.enumerate_exported_functions address = some info)
    (hbog : _is_bogus_api info.name = true)
    (hsim : _simulate_bogus_api info.name = .ok (r, n))
    (htop : ¬(unpackPtr (mem_read uc (reg_read uc spR) pcntl.pointer_size) = stop_on ∨
       unpackPtr (mem_read uc (reg_read uc spR) pcntl.pointer_size) = stop_on + 1 ∨
       unpackPtr (mem_read uc (reg_read uc spR) pcntl.pointer_size) = STACK_MAGIC_RET_ADDR)) :
    Except.map (fun p => p.2) (_unicorn_hook_block uc address (pcntl, stop_on)) = .ok false ∧
    Except.map (fun p => p.1.regs pcR) (_unicorn_hook_block uc address (pcntl, stop_on))
      = .ok (unpackPtr (mem_read uc (reg_read uc spR) pcntl.pointer_size) % 2 ^ uc.width) ∧
    Except.map (fun p => p.1.regs resR) (_unicorn_hook_block uc address (pcntl, stop_on))
      = .ok (r % 2 ^ uc.width) ∧
    (pcntl.architecture = .X86_32 →
      Except.map (fun p => p.1.regs spR) (_unicorn_hook_block uc address (pcntl, stop_on))
        = .ok ((reg_read uc spR + pcntl.pointer_size * (1 + n)) % 2 ^ uc.width)) ∧
    (pcntl.architecture = .X86_64 →
      Except.map (fun p => p.1.regs spR) (_unicorn_hook_block uc address (pcntl, stop_on))
        = .ok ((reg_read uc spR + pcntl.pointer_size * (1 + max 0 (n - 4))) % 2 ^ uc.width)) ∧
    (info.name = "Sleep" → r = 0 ∧ n = 1) := by
  have hname : info.name = "Sleep" := by
    simpa [_is_bogus_api, List.contains] using hbog
  have hrn : r = 0 ∧ n = 1 := by
    rw [hname] at hsim
    simpa [_simulate_bogus_api, BOGUS_API_MAP, List.lookup] using hsim.symm
  have hnr : _is_no_return_api info.name = false := by
    rw [hname]; decide
  cases harch : pcntl.architecture with
  | X86_32 =>
    rw [harch] at hreg
    have hregs : pcR = .EIP ∧ spR = .ESP ∧ resR = .EAX := by
      simpa [hookRegisters, Prod.ext_iff] using hreg.symm
    obtain ⟨h1, h2, h3⟩ := hregs
    subst h1; subst h2; subst h3
    refine ⟨?_, ?_, ?_, ?_, ?_, fun _ => hrn⟩ <;>
      simp only [_unicorn_hook_block, hreg, hexp, if_neg htop, hnr, Bool.false_eq_true,
        if_false, hbog, if_true, hname, _simulate_bogus_api, BOGUS_API_MAP, List.lookup,
        harch, hookRegisters] <;>
      simp +decide [Except.map, reg_write, logEntry, reg_read, hrn.1, hrn.2,
        _is_no_return_api, _is_bogus_api]
  | X86_64 =>
    rw [harch] at hreg
    have hregs : pcR = .RIP ∧ spR = .RSP ∧ resR = .RAX := by
      simpa [hookRegisters, Prod.ext_iff] using hreg.symm
    obtain ⟨h1, h2, h3⟩ := hregs
    subst h1; subst h2; subst h3
    refine ⟨?_, ?_, ?_, ?_, ?_, fun _ => hrn⟩ <;>
      simp only [_unicorn_hook_block, hreg, hexp, if_neg htop, hnr, Bool.false_eq_true,
        if_false, hbog, if_true, hname, _simulate_bogus_api, BOGUS_API_MAP, List.lookup,
        harch, hookRegisters] <;>
      simp +decide [Except.map, reg_write, logEntry, reg_read, hrn.1, hrn.2,
        _is_no_return_api, _is_bogus_api]
  | Other tag =>
    rw [harch] at hreg
    simp [hookRegisters] at hreg

/-- Witness for C4: the one-argument bogus API Sleep advances the stack
pointer by two pointer widths on 32-bit and one pointer width on 64-bit,
does not stop emulation, and jumps to the stacked return address. -/
theorem hook_block_bogus_bypass_witness :
    sampleProc32.enumerate_exported_functions 0x6000 = some { name := "Sleep" } ∧
    _simulate_bogus_api "Sleep" = .ok (0, 1) ∧
    Except.map (fun p => p.2) (_unicorn_hook_block ucStack5 0x6000 (sampleProc32, 100))
      = .ok false ∧
    Except.map (fun p => p.1.regs X86Reg.ESP) (_unicorn_hook_block ucStack5 0x6000 (sampleProc32, 100))
      = .ok 0x9008 ∧
    Except.map (fun p => p.1.regs X86Reg.EIP) (_unicorn_hook_block ucStack5 0x6000 (sampleProc32, 100))
      = .ok 5 ∧
    Except.map (fun p => p.1.regs X86Reg.RSP) (_unicorn_hook_block ucStack5x64 0x6000 (sampleProc64, 100))
      = .ok 0x9008 :=
  ⟨rfl, rfl,
    (hook_block_bogus_bypass sampleProc32 100 ucStack5 0x6000 { name := "Sleep" }
      .EIP .ESP .EAX 0 1 rfl rfl rfl rfl (by decide)).1,
    (hook_block_bogus_bypass sampleProc32 100 ucStack5 0x6000 { name := "Sleep" }
      .EIP .ESP .EAX 0 1 rfl rfl rfl rfl (by decide)).2.2.2.1 rfl,
    (hook_block_bogus_bypass sampleProc32 100 ucStack5 0x6000 { name := "Sleep" }
      .EIP .ESP .EAX 0 1 rfl rfl rfl rfl (by decide)).2.1,
    (hook_block_bogus_bypass sampleProc64 100 ucStack5x64 0x6000 { name := "Sleep" }
      .RIP .RSP .RAX 0 1 rfl rfl rfl rfl (by decide)).2.2.2.2.1 rfl⟩

/-- Claim C5: a wrapper whose execution reaches an export in the
no-return set (ExitProcess, FatalExit, ExitThread) before reaching any
other export stops there with the resolution equal to that export's
address, whatever stop address is configured (any expected return
address, or the sentinel when none was supplied). -/
theorem run_noreturn_first_export (pcntl : ProcessController) (stop_on : Nat)
    (pre : List (Uc × Nat)) (u0 : Uc) (a : Nat) (rest : List (Uc × Nat))
    (info : ExportInfo) (pcR spR resR : X86Reg)
    (hreg : hookRegisters pcntl.architecture = .ok (pcR, spR, resR))
    (hpre : ∀ p ∈ pre, pcntl.enumerate_exported_functions p.2 = none)
    (hexp : pcntl.enumerate_exported_functions a = some info)
    (hnr : _is_no_return_api info.name = true) :
    Except.map (Option.map (fun u => u.regs resR))
      (runTrace pcntl stop_on (pre ++ (u0, a) :: rest))
      = .ok (some (a % 2 ^ u0.width)) := by
  induction pre with
  | nil =>
    simp only [List.nil_append, runTrace]
    by_cases hc : (unpackPtr (mem_read u0 (reg_read u0 spR) pcntl.pointer_size) = stop_on ∨
        unpackPtr (mem_read u0 (reg_read u0 spR) pcntl.pointer_size) = stop_on + 1 ∨
        unpackPtr (mem_read u0 (reg_read u0 spR) pcntl.pointer_size) = STACK_MAGIC_RET_ADDR)
    · simp only [_unicorn_hook_block, hreg, hexp, if_pos hc]
      simp [Except.map, reg_write, logEntry]
    · simp only [_unicorn_hook_block, hreg, hexp, if_neg hc, hnr, if_true]
      simp [Except.map, reg_write, logEntry]
  | cons p ps ih =>
    obtain ⟨pu, paddr⟩ := p
    have hnone : pcntl.enumerate_exported_functions paddr = none := by
      have := hpre (pu, paddr) (by simp)
      simpa using this
    simp only [List.cons_append, runTrace, _unicorn_hook_block, hreg, hnone]
    exact ih (fun q hq => hpre q (by simp [hq]))

/-- Witness for C5: a trace passing one non-export block, then the
ExitProcess export with a non-matching stack value, resolves to the
ExitProcess address with further blocks ignored. -/
theorem run_noreturn_first_export_witness :
    hookRegisters sampleProc32.architecture = .ok (.EIP, .ESP, .EAX) ∧
    (∀ p ∈ [((ucStack5 : Uc), (0x100 : Nat))],
      sampleProc32.enumerate_exported_functions p.2 = none) ∧
    sampleProc32.enumerate_exported_functions 0x5000 = some { name := "ExitProcess" } ∧
    _is_no_return_api "ExitProcess" = true ∧
    Except.map (Option.map (fun u => u.regs X86Reg.EAX))
      (runTrace sampleProc32 100
        ([(ucStack5, 0x100)] ++ (ucStack5, 0x5000) :: [(ucStack5, 0x7000)]))
      = .ok (some 0x5000) :=
  ⟨rfl, by decide, rfl, rfl,
    run_noreturn_first_export sampleProc32 100 [(ucStack5, 0x100)] ucStack5 0x5000
      [(ucStack5, 0x7000)] { name := "ExitProcess" } .EIP .ESP .EAX rfl (by decide) rfl rfl⟩

/-- Claim C10: when no expected return address is supplied, the sentinel
becomes the configured stop address, and the plus-one tolerance applies
to it too: at an export block, a stack return value of 0xdeadbef0 stops
emulation and resolves to the export exactly as 0xdeadbeef does. -/
theorem hook_block_sentinel_tolerance (pcntl : ProcessController) (uc : Uc)
    (address : Nat) (info : ExportInfo) (pcR spR resR : X86Reg)
    (hreg : hookRegisters pcntl.architecture = .ok (pcR, spR, resR))
    (hexp : pcntl.enumerate_exported_functions address = some info)
    (htop : unpackPtr (mem_read uc (reg_read uc spR) pcntl.pointer_size) = 0xdeadbeef ∨
            unpackPtr (mem_read uc (reg_read uc spR) pcntl.pointer_size) = 0xdeadbef0) :
    stopOnRetAddr none = STACK_MAGIC_RET_ADDR ∧
    Except.map (fun p => p.2)
      (_unicorn_hook_block uc address (pcntl, stopOnRetAddr none)) = .ok true ∧
    Except.map (fun p => p.1.regs resR)
      (_unicorn_hook_block uc address (pcntl, stopOnRetAddr none))
      = .ok (address % 2 ^ uc.width) := by
  have hcond : unpackPtr (mem_read uc (reg_read uc spR) pcntl.pointer_size)
      = stopOnRetAddr none ∨
      unpackPtr (mem_read uc (reg_read uc spR) pcntl.pointer_size) = stopOnRetAddr none + 1 ∨
      unpackPtr (mem_read uc (reg_read uc spR) pcntl.pointer_size) = STACK_MAGIC_RET_ADDR := by
    rcases htop with h | h
    · exact Or.inl (by rw [h]; rfl)
    · exact Or.inr (Or.inl (by rw [h]; rfl))
  refine ⟨rfl, ?_, ?_⟩
  · simp only [_unicorn_hook_block, hreg, hexp, if_pos hcond, Except.map]
  · simp only [_unicorn_hook_block, hreg, hexp, if_pos hcond, Except.map]
    simp [reg_write, logEntry]

/-- Witness for C10: with no expected return address, the stack value
0xdeadbef0 at the CreateFileA export stops emulation and resolves to it,
as does 0xdeadbeef itself. -/
theorem hook_block_sentinel_tolerance_witness :
    hookRegisters sampleProc32.architecture = .ok (.EIP, .ESP, .EAX) ∧
    sampleProc32.enumerate_exported_functions 0x7000 = some { name := "CreateFileA" } ∧
    unpackPtr (mem_read ucSentinelPlus1 (reg_read ucSentinelPlus1 .ESP)
      sampleProc32.pointer_size) = 0xdeadbef0 ∧
    (stopOnRetAddr none = STACK_MAGIC_RET_ADDR ∧
     Except.map (fun p => p.2)
       (_unicorn_hook_block ucSentinelPlus1 0x7000 (sampleProc32, stopOnRetAddr none))
       = .ok true ∧
     Except.map (fun p => p.1.regs X86Reg.EAX)
       (_unicorn_hook_block ucSentinelPlus1 0x7000 (sampleProc32, stopOnRetAddr none))
       = .ok (0x7000 % 2 ^ ucSentinelPlus1.width)) :=
  ⟨rfl, rfl, by decide,
    hook_block_sentinel_tolerance sampleProc32 ucSentinelPlus1 0x7000 { name := "CreateFileA" }
      .EIP .ESP .EAX rfl rfl (Or.inr (by decide))⟩
